import Mathlib

/-!
# Business KPI Analyzer — verification of the core pipeline

A shallow embedding of the core of the Business KPI Analyzer
(`features.py`, `ai_logic.py`): file-format dispatch, the statistical
digest builder, the narrative summarizer, the conversational context
manager, and the report packager.  The remote language-model capability
is modelled as an explicit oracle (an `InitOutcome` for client
configuration / model selection and a call function returning a
`CallOutcome`), since the actual remote service is an external
collaborator.  Strings are Lean `String`s; numeric cells are rationals;
the UTF-8 and base64 codecs used by the packager are embedded as
executable functions on lists of naturals (byte values).
-/

namespace KpiAnalyzer

/-! ## Remote language-model oracle -/

/-- Outcome of `_configure_genai` + `_get_suitable_model` +
`genai.GenerativeModel(...)`: either a chosen model name, or an exception
(configuration, authentication or model-selection failure) carrying its
message.  (`ai_logic.py` lines 61–67 and 118–124 catch any such
exception.) -/
inductive InitOutcome where
  | ok (modelName : String)
  | fail (msg : String)

/-- Shape of a successful generate-content response, as inspected by
`ai_logic.py`: a response with `parts` (whose `text` is returned), a
response without parts but with `candidates[0].text`, or a response from
which no text can be extracted. -/
inductive GenResponse where
  | withParts (text : String)
  | candidateText (text : String)
  | empty

/-- Outcome of one remote generation call: a response object, or an
exception carrying its message. -/
inductive CallOutcome where
  | response (r : GenResponse)
  | exn (msg : String)

/-! ## Narrative summarizer (`ai_logic.generate_kpi_summary`) -/

/-- The fixed instruction template of `generate_kpi_summary`
(`ai_logic.py` lines 69–87): text before the interpolated KPI data. -/
def kpiPromptPre : String :=
  "\n    You are a Business Intelligence Analyst. Your task is to analyze the following business KPI data\n    and provide a concise, natural-language summary. Highlight key trends, spikes, and anomalies.\n    Keep the summary professional and actionable for decision-makers.\n\n    ---\n    KPI Data:\n    "

/-- The fixed instruction template of `generate_kpi_summary`: text after
the interpolated KPI data. -/
def kpiPromptPost : String :=
  "\n    ---\n\n    Provide your summary focusing on:\n    - Overall performance across key metrics (e.g., Revenue, Churn, Conversion).\n    - Significant increases or decreases (spikes/dips).\n    - Emerging trends.\n    - Any outliers or unusual data points.\n    - Potential implications or areas for further investigation.\n\n    Format your output clearly with bullet points or a coherent paragraph structure.\n    "

/-- The prompt `generate_kpi_summary` sends: the template with the KPI
digest interpolated verbatim. -/
def kpiPrompt (kpi_data_markdown : String) : String :=
  kpiPromptPre ++ kpi_data_markdown ++ kpiPromptPost

/-- Fallback text of `generate_kpi_summary` when the response carries no
extractable text (`ai_logic.py` line 99). -/
def kpiFallbackText : String :=
  "AI response structure not as expected for KPI summary. Could not extract text."

/-- `ai_logic.generate_kpi_summary`, with the remote capability passed as
an oracle: `init` is the outcome of configuring the client and selecting
a model, `call` maps the prompt to the outcome of
`model.generate_content`.  Every failure is converted to an
`"ERROR:"`-prefixed string; the function is total (nothing is raised past
this boundary). -/
def generate_kpi_summary (init : InitOutcome) (call : String → CallOutcome)
    (kpi_data_markdown : String) : String :=
  match init with
  | .fail e => "ERROR: Could not initialize Generative Model for KPI summary: " ++ e
  | .ok _ =>
    match call (kpiPrompt kpi_data_markdown) with
    | .response (.withParts t) => t
    | .response (.candidateText t) => t
    | .response .empty => kpiFallbackText
    | .exn e =>
      "ERROR: An error occurred while calling the Google Generative AI API for KPI summary: " ++ e

/-! ## Conversational context manager (`ai_logic.chat_with_llm`) -/

/-- One exchange unit: a role tag and a content string.  Caller-side
turns use roles `"user"`/`"assistant"`; provider-side turns use
`"user"`/`"model"`. -/
structure Turn where
  role : String
  content : String
deriving DecidableEq, Repr

/-- Text of the synthesized first turn before the interpolated context
(`ai_logic.py` lines 128–136; adjacent f-strings concatenate). -/
def chatContextPre : String :=
  "You are a helpful Business Intelligence chatbot. You are provided with business KPI data below. Answer questions about this data naturally and concisely. If the question is outside the scope of the provided data or general business knowledge, state that you cannot answer.\n\n--- KPI Data Context ---\n"

/-- Text of the synthesized first turn after the interpolated context. -/
def chatContextPost : String := "\n--- End KPI Data Context ---"

/-- The synthesized leading turn of `chat_with_llm`: role `user`, content
embedding the context data verbatim. -/
def initialChatMessage (context_data_markdown : String) : Turn :=
  ⟨"user", chatContextPre ++ context_data_markdown ++ chatContextPost⟩

/-- Role mapping of `ai_logic.py` line 144: caller role `"user"` maps to
provider role `"user"`, anything else (in particular `"assistant"`) maps
to provider role `"model"`. -/
def mapRole (r : String) : String :=
  if r = "user" then "user" else "model"

/-- `formatted_history` of `ai_logic.py` lines 139–145: each caller turn
re-tagged by `mapRole`, content carried verbatim. -/
def formatHistory (chat_history : List Turn) : List Turn :=
  chat_history.map fun m => ⟨mapRole m.role, m.content⟩

/-- The full ordered turn sequence submitted to the remote model by
`chat_with_llm`: the history given to `model.start_chat`
(`[initial_message] + formatted_history`) followed by the new user query
sent by `chat.send_message`. -/
def chatProviderSequence (context_data_markdown user_query : String)
    (chat_history : List Turn) : List Turn :=
  (initialChatMessage context_data_markdown :: formatHistory chat_history)
    ++ [⟨"user", user_query⟩]

/-- `ai_logic.chat_with_llm` with the remote capability as an oracle:
`send` receives the provider-side history (first argument of
`start_chat`) and the new message. -/
def chat_with_llm (init : InitOutcome) (send : List Turn → String → CallOutcome)
    (context_data_markdown user_query : String) (chat_history : List Turn) : String :=
  match init with
  | .fail e => "ERROR: Could not initialize Generative Model for chatbot: " ++ e
  | .ok _ =>
    match send (initialChatMessage context_data_markdown :: formatHistory chat_history)
        user_query with
    | .response (.withParts t) => t
    | .response (.candidateText t) => t
    | .response .empty => "AI chatbot response structure not as expected. Could not extract text."
    | .exn e =>
      "ERROR: An error occurred while calling the Google Generative AI API for chatbot: " ++ e

/-! ## Tables and cells (`pandas.DataFrame` as loaded by `features.py`) -/

/-- One cell of a loaded table: a numeric value (pandas numeric dtypes,
embedded as ℚ), a missing value (`NaN` inside a numeric column), or
non-numeric text (object dtype). -/
inductive Cell where
  | num (q : ℚ)
  | na
  | str (s : String)
deriving DecidableEq, Repr

/-- A cell a numeric-dtype column may hold: a number or a missing value. -/
def isNumericCell : Cell → Bool
  | .num _ => true
  | .na => true
  | .str _ => false

/-- The numeric value carried by a cell, if any. -/
def cellValue : Cell → Option ℚ
  | .num q => some q
  | _ => none

/-- A column is numeric (selected by `select_dtypes(include=['number'])`)
when every cell is numeric or missing. -/
def isNumericCol (cells : List Cell) : Bool := cells.all isNumericCell

/-- The non-missing values of a column, in order. -/
def numericValues (cells : List Cell) : List ℚ := cells.filterMap cellValue

/-- A loaded table: ordered named columns of cells (invariant maintained
by the loaders: equal lengths, unique names). -/
structure Table where
  cols : List (String × List Cell)
deriving DecidableEq, Repr

/-- `df.empty` of pandas: no element at all (no columns, or every column
without rows). -/
def Table.isEmpty (t : Table) : Bool := t.cols.all fun c => c.2.isEmpty

/-- The numeric columns of a table, in original column order
(`df.select_dtypes(include=['number'])`). -/
def numericCols (t : Table) : List (String × List Cell) :=
  t.cols.filter fun c => isNumericCol c.2

/-! ## Statistical digest builder (`describe().transpose()` and
`to_markdown`) -/

/-- Insert into a sorted list of rationals. -/
def insertSorted (x : ℚ) : List ℚ → List ℚ
  | [] => [x]
  | y :: ys => if x ≤ y then x :: y :: ys else y :: insertSorted x ys

/-- Sort a list of rationals (ascending), as the quantile computation
requires. -/
def sortQ : List ℚ → List ℚ
  | [] => []
  | x :: xs => insertSorted x (sortQ xs)

/-- Linear-interpolation quantile over the sorted values, the default of
pandas `describe`: position `q·(n−1)`, interpolating between the
adjacent order statistics. -/
def quantileQ (q : ℚ) (sorted : List ℚ) : ℚ :=
  if sorted.length = 0 then 0
  else
    let h : ℚ := q * ((sorted.length : ℚ) - 1)
    let l : ℕ := (Int.floor h).toNat
    let lo := sorted.getD l 0
    let hi := sorted.getD (l + 1) lo
    lo + (h - (l : ℚ)) * (hi - lo)

/-- The eight descriptive statistics of pandas `describe` for one numeric
column.  The standard deviation is irrational in general, so the row
carries the sample variance `var`; the reported std is its nonnegative
square root. -/
structure StatsRow where
  count : ℚ
  mean : ℚ
  var : ℚ
  min : ℚ
  q25 : ℚ
  q50 : ℚ
  q75 : ℚ
  max : ℚ
deriving DecidableEq, Repr

/-- `describe()` of one numeric column, over its non-missing values:
count, mean, sample (n−1) variance, min, linear-interpolation quartiles,
max. -/
def describeCol (vs : List ℚ) : StatsRow :=
  let n : ℚ := (vs.length : ℚ)
  let mean := vs.sum / n
  let var := (vs.map fun x => (x - mean) ^ 2).sum / (n - 1)
  let sorted := sortQ vs
  { count := n
    mean := mean
    var := var
    min := sorted.headD 0
    q25 := quantileQ (1/4) sorted
    q50 := quantileQ (1/2) sorted
    q75 := quantileQ (3/4) sorted
    max := sorted.getLastD 0 }

/-- The transposed digest: one row per numeric column (metric names as
rows), in original column order. -/
def digestGrid (t : Table) : List (String × StatsRow) :=
  (numericCols t).map fun c => (c.1, describeCol (numericValues c.2))

/-- Sentinel of `features.py` line 50 when no numeric column exists. -/
def noNumericSentinel : String := "No numerical data found for statistical summary."

/-- Fixed statistic order of the serialized digest's columns. -/
def statNames : List String :=
  ["count", "mean", "std", "min", "25%", "50%", "75%", "max"]

/-- Deterministic textual rendering of a rational statistic value. -/
def ratText (q : ℚ) : String := toString q

/-- Textual rendering of the std entry: the square root of the sample
variance (the digest's one irrational entry, rendered symbolically in
this embedding in place of pandas' decimal float rendering). -/
def stdText (var : ℚ) : String := "sqrt(" ++ ratText var ++ ")"

/-- The serialized entries of one digest row, in the fixed statistic
order count, mean, std, min, 25%, 50%, 75%, max. -/
def statsRowTexts (r : StatsRow) : List String :=
  [ratText r.count, ratText r.mean, stdText r.var, ratText r.min,
   ratText r.q25, ratText r.q50, ratText r.q75, ratText r.max]

/-- One pipe-delimited row of the serialized digest. -/
def gridRowText (name : String) (r : StatsRow) : String :=
  "| " ++ name ++ " | " ++ String.intercalate " | " (statsRowTexts r) ++ " |"

/-- Header row of the serialized digest. -/
def digestHeaderText : String :=
  "| | " ++ String.intercalate " | " statNames ++ " |"

/-- Header-separator row of the pipe-delimited grid. -/
def digestSeparatorText : String :=
  "|---|---|---|---|---|---|---|---|---|"

/-- `numeric_df.describe().transpose().to_markdown()` of `features.py`
lines 45–50: the sentinel when no numeric column exists, otherwise the
pipe-delimited grid with a header-separator row and one row per numeric
column in original column order. -/
def digestMarkdown (t : Table) : String :=
  if (Table.mk (numericCols t)).isEmpty then noNumericSentinel
  else
    String.intercalate "\n"
      (digestHeaderText :: digestSeparatorText ::
        (digestGrid t).map fun p => gridRowText p.1 p.2)

/-! ## Format detector & loader (`features.ingest_and_summarize_kpis`) -/

/-- Outcome of one tabular parser (`pd.read_csv` / `pd.read_excel` /
`pd.read_json`) on the uploaded bytes: a table, or a raised exception
carrying its message.  The parsers themselves are external (pandas); the
loader is modelled as dispatching among the three given outcomes. -/
inductive ParseOutcome where
  | ok (t : Table)
  | err (msg : String)

/-- One character of `str.lower()`, for the ASCII letters (the only
case distinctions the dispatch set `csv`/`xls`/`xlsx`/`json` can
observe). -/
def lowerChar (c : Char) : Char :=
  if 65 ≤ c.toNat ∧ c.toNat ≤ 90 then Char.ofNat (c.toNat + 32) else c

/-- `str.lower()` of a suffix, character by character. -/
def toLowerAscii (s : String) : String := String.mk (s.data.map lowerChar)

/-- Python's `name.split('.')` on the character list: the maximal
dot-free segments, with empty segments kept (so the result is never
empty). -/
def splitOnDot : List Char → List (List Char)
  | [] => [[]]
  | c :: rest =>
    let r := splitOnDot rest
    if c = '.' then [] :: r
    else (c :: r.headD []) :: r.tail

/-- `uploaded_file.name.split('.')[-1].lower()`: the lowercase part of
the name after the last `'.'` (the whole name when no dot occurs). -/
def fileExtension (name : String) : String :=
  toLowerAscii (String.mk ((splitOnDot name.data).getLastD []))

/-- `uploaded_file.name.split('.')[0]`: the part of the name before the
first `'.'` (the whole name when no dot occurs), used as the download
filename stem and the hypertext title. -/
def fileNameFirstPart (name : String) : String :=
  String.mk ((splitOnDot name.data).headD [])

/-- Error text of `features.py` line 39 for an unsupported suffix. -/
def unsupportedFormatMsg : String :=
  "Unsupported file type. Please upload a CSV, Excel (.xls, .xlsx), or JSON file."

/-- Error text of `features.py` line 52 for an empty parse result. -/
def emptyDatasetMsg : String := "Uploaded file is empty or contains no data."

/-- What `ingest_and_summarize_kpis` does with a dispatched parser's
outcome (`features.py` lines 42–57): a raised exception becomes the
ingestion-error message; an empty table becomes the empty-dataset error;
otherwise the table and its serialized digest are returned with no
error. -/
def processParsed : ParseOutcome → Option Table × Option String × Option String
  | .err e => (none, none, some ("Error ingesting or processing file: " ++ e))
  | .ok t =>
    if t.isEmpty then (none, none, some emptyDatasetMsg)
    else (some t, some (digestMarkdown t), none)

/-- `features.ingest_and_summarize_kpis`: dispatch on the lowercase
suffix after the last `'.'` of the uploaded file's name — `csv` to the
delimited-text parser, `xls`/`xlsx` to the spreadsheet parser, `json` to
the JSON-table parser, anything else to the unsupported-format error —
then digest the parsed table.  Returns (table?, digest-markdown?,
error?). -/
def ingest_and_summarize_kpis (name : String)
    (csvParse excelParse jsonParse : ParseOutcome) :
    Option Table × Option String × Option String :=
  let ext := fileExtension name
  if ext = "csv" then processParsed csvParse
  else if ext = "xls" ∨ ext = "xlsx" then processParsed excelParse
  else if ext = "json" then processParsed jsonParse
  else (none, none, some unsupportedFormatMsg)

/-! ## String helper predicates used by the orchestrator -/

/-- Python's `summary_text.startswith("ERROR:")`, on the character
lists. -/
def startsWithERROR (s : String) : Bool :=
  "ERROR:".data.isPrefixOf s.data

/-- Python's `"No numerical data" in kpi_description_markdown`
(`features.py` line 94), on the character lists. -/
def containsNoNumericalData (s : String) : Bool :=
  decide ("No numerical data".data <:+: s.data)

/-! ## UTF-8 and base64 codecs (`content.encode("utf-8")`,
`base64.b64encode`) of the report packager, on byte values -/

/-- UTF-8 encoding of one code point (the bytes of Python's
`str.encode("utf-8")` for that character). -/
def utf8EncodeChar (c : ℕ) : List ℕ :=
  if c < 128 then [c]
  else if c < 2048 then [192 + c / 64, 128 + c % 64]
  else if c < 65536 then [224 + c / 4096, 128 + c / 64 % 64, 128 + c % 64]
  else [240 + c / 262144, 128 + c / 4096 % 64, 128 + c / 64 % 64, 128 + c % 64]

/-- UTF-8 encoding of a string: the byte values of
`content.encode("utf-8")`. -/
def encodeUtf8 (s : String) : List ℕ :=
  s.data.flatMap fun ch => utf8EncodeChar ch.toNat

/-- UTF-8 decoding back to code points (`bytes.decode("utf-8")`),
returning `none` on a truncated or ill-formed sequence. -/
def utf8Decode (l : List ℕ) : Option (List ℕ) :=
  if hl : l.length = 0 then some []
  else
    let b0 := l.headD 0
    let rest := l.tail
    if b0 < 128 then (utf8Decode rest).map (b0 :: ·)
    else if b0 < 192 then none
    else if b0 < 224 then
      if rest.length < 1 then none
      else
        (utf8Decode (rest.drop 1)).map
          (((b0 - 192) * 64 + (rest.headD 0 - 128)) :: ·)
    else if b0 < 240 then
      if rest.length < 2 then none
      else
        (utf8Decode (rest.drop 2)).map
          (((b0 - 224) * 4096 + (rest.headD 0 - 128) * 64 + (rest.tail.headD 0 - 128)) :: ·)
    else
      if rest.length < 3 then none
      else
        (utf8Decode (rest.drop 3)).map
          (((b0 - 240) * 262144 + (rest.headD 0 - 128) * 4096
            + (rest.tail.headD 0 - 128) * 64 + (rest.tail.tail.headD 0 - 128)) :: ·)
termination_by l.length
decreasing_by
  all_goals simp [List.length_tail, List.length_drop]
  all_goals omega

/-- The base64 alphabet, in value order. -/
def b64Chars : List Char :=
  "ABCDEFGHIJKLMNOPQRSTUVWXYZabcdefghijklmnopqrstuvwxyz0123456789+/".data

/-- The base64 character of a sextet value. -/
def b64Char (n : ℕ) : Char := b64Chars.getD n 'A'

/-- The sextet value of a base64 character, if it is in the alphabet. -/
def sextetOf (c : Char) : Option ℕ := b64Chars.findIdx? fun d => d = c

/-- `base64.b64encode` on byte values: standard base64 with `'='`
padding. -/
def base64Encode : List ℕ → List Char
  | [] => []
  | [b0] => [b64Char (b0 / 4), b64Char (b0 % 4 * 16), '=', '=']
  | [b0, b1] =>
    [b64Char (b0 / 4), b64Char (b0 % 4 * 16 + b1 / 16), b64Char (b1 % 16 * 4), '=']
  | b0 :: b1 :: b2 :: rest =>
    b64Char (b0 / 4) :: b64Char (b0 % 4 * 16 + b1 / 16) ::
      b64Char (b1 % 16 * 4 + b2 / 64) :: b64Char (b2 % 64) :: base64Encode rest

/-- `base64.b64decode` on the characters of a base64 payload, returning
`none` on anything that is not a well-padded base64 text. -/
def base64Decode : List Char → Option (List ℕ)
  | c0 :: c1 :: c2 :: c3 :: rest =>
    match sextetOf c0, sextetOf c1 with
    | some s0, some s1 =>
      if c2 = '=' then
        if c3 = '=' ∧ rest = [] then some [s0 * 4 + s1 / 16] else none
      else
        match sextetOf c2 with
        | some s2 =>
          if c3 = '=' then
            if rest = [] then some [s0 * 4 + s1 / 16, s1 % 16 * 16 + s2 / 4] else none
          else
            match sextetOf c3 with
            | some s3 =>
              (base64Decode rest).map fun r =>
                (s0 * 4 + s1 / 16) :: (s1 % 16 * 16 + s2 / 4) :: (s2 % 4 * 64 + s3) :: r
            | none => none
        | none => none
    | _, _ => none
  | [] => some []
  | _ => none

/-! ## Report packager and orchestrator
(`features.generate_report_and_insights`) -/

/-- Summary text of `features.py` line 95 when the digest is absent or
is the no-numeric-data sentinel. -/
def noNumericKpiSummary : String :=
  "No numerical KPIs found in the report to generate a detailed summary. Try uploading a report with numeric columns."

/-- The Markdown artifact's base64 payload: the narrative's UTF-8 bytes,
base64-encoded (`features.py` line 110). -/
def packageMarkdownPayload (content : String) : List Char :=
  base64Encode (encodeUtf8 content)

/-- MIME type of the Markdown artifact (`features.py` line 111). -/
def markdownMime : String := "text/markdown"

/-- MIME type of the hypertext artifact (`features.py` line 140). -/
def htmlMime : String := "text/html"

/-- The Markdown artifact's data URL (`features.py` line 112). -/
def markdownDownloadLink (content : String) : String :=
  "data:" ++ markdownMime ++ ";base64," ++ String.mk (packageMarkdownPayload content)

/-- The `<title>` element's text of the hypertext page: a fixed label
followed by the download filename stem. -/
def pageTitleText (stem : String) : String := "KPI Summary - " ++ stem

/-- The fixed hypertext template before the title text (`features.py`
lines 115–121). -/
def htmlDocPre : String :=
  "\n            <!DOCTYPE html>\n            <html lang=\"en\">\n            <head>\n                <meta charset=\"UTF-8\">\n                <meta name=\"viewport\" content=\"width=device-width, initial-scale=1.0\">\n                <title>"

/-- The fixed hypertext template between the title text and the rendered
narrative (`features.py` lines 121–133; the style rules' literal braces
are the output of the Python f-string's doubled braces). -/
def htmlDocMid : String :=
  "</title>\n                <style>\n                    body \x7b font-family: \x27Inter\x27, sans-serif; line-height: 1.6; margin: 20px; color: #333; \x7d\n                    h1, h2, h3, h4, h5, h6 \x7b font-family: \x27Inter\x27, sans-serif; color: #2E86C1; \x7d\n                    h2 \x7b border-bottom: 1px solid #eee; padding-bottom: 5px; margin-top: 30px; \x7d\n                    pre \x7b background-color: #f4f4f4; padding: 10px; border-radius: 5px; overflow-x: auto; \x7d\n                    code \x7b background-color: #f9f9f9; padding: 2px 4px; border-radius: 3px; font-family: monospace; \x7d\n                    ul \x7b list-style-type: disc; padding-left: 20px; \x7d\n                    ol \x7b padding-left: 20px; \x7d\n                    ul li, ol li \x7b margin-bottom: 5px; \x7d\n                </style>\n            </head>\n            <body>\n                "

/-- The fixed hypertext template after the rendered narrative
(`features.py` lines 135–137). -/
def htmlDocPost : String := "\n            </body>\n            </html>\n            "

/-- The full hypertext page (`features.py` lines 115–137): the fixed
template with the title stem and the rendered narrative embedded. -/
def htmlPage (stem renderedSummary : String) : String :=
  htmlDocPre ++ pageTitleText stem ++ htmlDocMid ++ renderedSummary ++ htmlDocPost

/-- The hypertext artifact's data URL (`features.py` lines 139–141). -/
def htmlDownloadLink (stem renderedSummary : String) : String :=
  "data:" ++ htmlMime ++ ";base64," ++
    String.mk (base64Encode (encodeUtf8 (htmlPage stem renderedSummary)))

/-- `features.generate_report_and_insights`, with the uploaded file
modelled by its name and the three parser outcomes, the narrative
summarizer (`generate_kpi_summary` applied to its oracle) passed as
`summarizer`, and the external `markdown.markdown` renderer passed as
`render`.  Returns (summary-text, download-link?, success,
error-message?, table?). -/
def generate_report_and_insights (name : String)
    (csvParse excelParse jsonParse : ParseOutcome)
    (summarizer render : String → String) (output_format : String) :
    String × Option String × Bool × Option String × Option Table :=
  match ingest_and_summarize_kpis name csvParse excelParse jsonParse with
  | (dfOpt, descOpt, errOpt) =>
    match errOpt with
    | some e => ("", none, false, some ("Data Ingestion Error: " ++ e), none)
    | none =>
      match dfOpt with
      | none => ("No data was successfully ingested or the file is empty.", none, true, none, none)
      | some df =>
        if df.isEmpty then
          ("No data was successfully ingested or the file is empty.", none, true, none, none)
        else
          let summary_text :=
            match descOpt with
            | none => noNumericKpiSummary
            | some d => if containsNoNumericalData d then noNumericKpiSummary else summarizer d
          if summary_text = "" ∨ startsWithERROR summary_text then
            ("", none, false, some summary_text, some df)
          else
            let stem := fileNameFirstPart name
            if output_format = "markdown" then
              (summary_text, some (markdownDownloadLink summary_text), true, none, some df)
            else if output_format = "html" then
              (summary_text, some (htmlDownloadLink stem (render summary_text)), true, none,
                some df)
            else
              (summary_text, none, false, some "Unsupported output format for download.", some df)

/-- Following the words of the specification, for comparison with the
code (claim C7): the filename stem, "the name with its final extension
removed". -/
def specFilenameStem (name : String) : String :=
  let parts := splitOnDot name.data
  if parts.length ≤ 1 then name
  else String.mk (List.intercalate ['.'] parts.dropLast)

/-- A small concrete report table (one numeric column whose statistics
are all integral), used to instantiate hypotheses at concrete inputs. -/
def sampleTable : Table := ⟨[("kpi", [Cell.num 1, Cell.num 1])]⟩

/-! ## Helper lemmas: the codecs are inverse pairs -/

theorem sextetOf_b64Char (n : ℕ) (h : n < 64) : sextetOf (b64Char n) = some n := by
  have key : ∀ m, m < 64 → sextetOf (b64Char m) = some m := by decide
  exact key n h

theorem b64Char_ne_pad (n : ℕ) (h : n < 64) : ¬ b64Char n = '=' := by
  have key : ∀ m, m < 64 → ¬ b64Char m = '=' := by decide
  exact key n h

/-- base64 decoding is a left inverse of base64 encoding on byte
values. -/
theorem base64_roundTrip (bs : List ℕ) (h : ∀ b ∈ bs, b < 256) :
    base64Decode (base64Encode bs) = some bs := by
  induction bs using base64Encode.induct with
  | case1 => rfl
  | case2 b0 =>
    have hb0 : b0 < 256 := h b0 (by simp)
    simp only [base64Encode, base64Decode,
      sextetOf_b64Char (b0 / 4) (by omega),
      sextetOf_b64Char (b0 % 4 * 16) (by omega)]
    simp
    omega
  | case3 b0 b1 =>
    have hb0 : b0 < 256 := h b0 (by simp)
    have hb1 : b1 < 256 := h b1 (by simp)
    simp only [base64Encode, base64Decode,
      sextetOf_b64Char (b0 / 4) (by omega),
      sextetOf_b64Char (b0 % 4 * 16 + b1 / 16) (by omega),
      sextetOf_b64Char (b1 % 16 * 4) (by omega),
      b64Char_ne_pad (b1 % 16 * 4) (by omega)]
    simp
    omega
  | case4 b0 b1 b2 rest ih =>
    have hb0 : b0 < 256 := h b0 (by simp)
    have hb1 : b1 < 256 := h b1 (by simp)
    have hb2 : b2 < 256 := h b2 (by simp)
    have hrest : ∀ b ∈ rest, b < 256 := fun b hb => h b (by simp [hb])
    simp only [base64Encode, base64Decode,
      sextetOf_b64Char (b0 / 4) (by omega),
      sextetOf_b64Char (b0 % 4 * 16 + b1 / 16) (by omega),
      sextetOf_b64Char (b1 % 16 * 4 + b2 / 64) (by omega),
      sextetOf_b64Char (b2 % 64) (by omega),
      b64Char_ne_pad (b1 % 16 * 4 + b2 / 64) (by omega),
      b64Char_ne_pad (b2 % 64) (by omega)]
    rw [ih hrest]
    simp
    omega

theorem utf8Decode_one (b0 : ℕ) (rest : List ℕ) (h : b0 < 128) :
    utf8Decode (b0 :: rest) = (utf8Decode rest).map (b0 :: ·) := by
  rw [utf8Decode]
  simp [h]

theorem utf8Decode_two (b0 b1 : ℕ) (rest : List ℕ)
    (h1 : ¬ b0 < 128) (h2 : ¬ b0 < 192) (h3 : b0 < 224) :
    utf8Decode (b0 :: b1 :: rest) =
      (utf8Decode rest).map (((b0 - 192) * 64 + (b1 - 128)) :: ·) := by
  rw [utf8Decode]
  simp [h1, h2, h3]

theorem utf8Decode_three (b0 b1 b2 : ℕ) (rest : List ℕ)
    (h1 : ¬ b0 < 128) (h2 : ¬ b0 < 192) (h3 : ¬ b0 < 224) (h4 : b0 < 240) :
    utf8Decode (b0 :: b1 :: b2 :: rest) =
      (utf8Decode rest).map
        (((b0 - 224) * 4096 + (b1 - 128) * 64 + (b2 - 128)) :: ·) := by
  rw [utf8Decode]
  simp [h1, h2, h3, h4]

theorem utf8Decode_four (b0 b1 b2 b3 : ℕ) (rest : List ℕ)
    (h1 : ¬ b0 < 128) (h2 : ¬ b0 < 192) (h3 : ¬ b0 < 224) (h4 : ¬ b0 < 240) :
    utf8Decode (b0 :: b1 :: b2 :: b3 :: rest) =
      (utf8Decode rest).map
        (((b0 - 240) * 262144 + (b1 - 128) * 4096 + (b2 - 128) * 64 + (b3 - 128)) :: ·) := by
  rw [utf8Decode]
  simp [h1, h2, h3, h4]

/-- Decoding the UTF-8 bytes of one code point at the front of a byte
stream recovers that code point. -/
theorem utf8Decode_encodeChar (c : ℕ) (hc : c < 1114112) (rest : List ℕ) :
    utf8Decode (utf8EncodeChar c ++ rest) = (utf8Decode rest).map (c :: ·) := by
  by_cases h1 : c < 128
  · rw [utf8EncodeChar, if_pos h1, List.cons_append, List.nil_append, utf8Decode_one _ _ h1]
  · by_cases h2 : c < 2048
    · rw [utf8EncodeChar, if_neg h1, if_pos h2]
      simp only [List.cons_append, List.nil_append]
      rw [utf8Decode_two _ _ _ (by omega) (by omega) (by omega)]
      have e : (192 + c / 64 - 192) * 64 + (128 + c % 64 - 128) = c := by omega
      rw [e]
    · by_cases h3 : c < 65536
      · rw [utf8EncodeChar, if_neg h1, if_neg h2, if_pos h3]
        simp only [List.cons_append, List.nil_append]
        rw [utf8Decode_three _ _ _ _ (by omega) (by omega) (by omega) (by omega)]
        have e : (224 + c / 4096 - 224) * 4096 + (128 + c / 64 % 64 - 128) * 64
            + (128 + c % 64 - 128) = c := by omega
        rw [e]
      · rw [utf8EncodeChar, if_neg h1, if_neg h2, if_neg h3]
        simp only [List.cons_append, List.nil_append]
        rw [utf8Decode_four _ _ _ _ _ (by omega) (by omega) (by omega) (by omega)]
        have e : (240 + c / 262144 - 240) * 262144 + (128 + c / 4096 % 64 - 128) * 4096
            + (128 + c / 64 % 64 - 128) * 64 + (128 + c % 64 - 128) = c := by omega
        rw [e]

theorem char_toNat_lt (c : Char) : c.toNat < 1114112 := by
  rcases c.valid with h | ⟨_, h⟩ <;> simp [Char.toNat] <;> omega

/-- UTF-8 decoding is a left inverse of UTF-8 encoding: the decoded code
points are exactly the string's characters. -/
theorem utf8_roundTrip (s : String) :
    utf8Decode (encodeUtf8 s) = some (s.data.map Char.toNat) := by
  rw [encodeUtf8]
  induction s.data with
  | nil =>
    rw [List.flatMap_nil, utf8Decode]
    simp
  | cons ch tl ih =>
    rw [List.flatMap_cons, utf8Decode_encodeChar ch.toNat (char_toNat_lt ch), ih]
    rfl

/-- Every byte produced by the UTF-8 encoder is below 256. -/
theorem encodeUtf8_lt (s : String) : ∀ b ∈ encodeUtf8 s, b < 256 := by
  intro b hb
  rw [encodeUtf8, List.mem_flatMap] at hb
  obtain ⟨ch, _, hmem⟩ := hb
  have hc : ch.toNat < 1114112 := char_toNat_lt ch
  rw [utf8EncodeChar] at hmem
  split at hmem
  · simp at hmem
    omega
  · split at hmem
    · simp at hmem
      rcases hmem with h | h <;> omega
    · split at hmem
      · simp at hmem
        rcases hmem with h | h | h <;> omega
      · simp at hmem
        rcases hmem with h | h | h | h <;> omega

theorem startsWithERROR_of_head (head tail : String)
    (h : "ERROR:".data <+: head.data) : startsWithERROR (head ++ tail) = true := by
  rw [startsWithERROR, List.isPrefixOf_iff_prefix, String.data_append]
  exact h.trans (List.prefix_append _ _)

/-- Claim C1: for every context string X and query Q1, `chat_with_llm`
with an empty history sends the remote model a turn sequence beginning
with one synthesized user turn embedding X verbatim, followed by the new
query Q1 (length 1 + 0 + 1); and for a two-turn prior history (user then
assistant), the sent sequence has length 4 (1 synthesized + 2 prior + 1
new), with caller role `"assistant"` mapped to provider role `"model"`,
caller role `"user"` mapped to `"user"`, and each prior turn's content
carried verbatim. -/
theorem chat_context_sequence (X Q1 Q2 a b : String) :
    chatProviderSequence X Q1 [] = [initialChatMessage X, ⟨"user", Q1⟩]
    ∧ (chatProviderSequence X Q1 []).length = 1 + 0 + 1
    ∧ (initialChatMessage X).role = "user"
    ∧ X.data <:+: (initialChatMessage X).content.data
    ∧ mapRole "assistant" = "model"
    ∧ mapRole "user" = "user"
    ∧ chatProviderSequence X Q2 [⟨"user", a⟩, ⟨"assistant", b⟩] =
        [initialChatMessage X, ⟨"user", a⟩, ⟨"model", b⟩, ⟨"user", Q2⟩]
    ∧ (chatProviderSequence X Q2 [⟨"user", a⟩, ⟨"assistant", b⟩]).length = 1 + 2 + 1 := by
  refine ⟨rfl, rfl, rfl, ⟨chatContextPre.data, chatContextPost.data, ?_⟩, rfl, rfl, rfl, rfl⟩
  rw [initialChatMessage]
  simp [String.data_append]

/-- Claim C2: for every digest input and every behaviour of the remote
capability, `generate_kpi_summary` is total (the embedding returns a
string on every oracle outcome, so nothing is raised past the boundary),
and on any failure of model selection, authentication or the generation
call itself the returned string carries the distinguishing `"ERROR:"`
prefix that orchestration code pattern-matches on. -/
theorem summarizer_error_prefixed (init : InitOutcome) (call : String → CallOutcome)
    (kpi e : String)
    (h : init = .fail e ∨ call (kpiPrompt kpi) = .exn e) :
    startsWithERROR (generate_kpi_summary init call kpi) = true := by
  rcases h with h | h
  · subst h
    exact startsWithERROR_of_head _ _ (by decide)
  · match init with
    | .fail e' =>
      exact startsWithERROR_of_head _ _ (by decide)
    | .ok m =>
      rw [generate_kpi_summary, h]
      exact startsWithERROR_of_head _ _ (by decide)

theorem summarizer_error_prefixed_witness :
    startsWithERROR
      (generate_kpi_summary (.ok "gemini-1.5-flash-latest")
        (fun _ => .exn "quota exceeded") "| x | 1 |") = true :=
  summarizer_error_prefixed (.ok "gemini-1.5-flash-latest")
    (fun _ => .exn "quota exceeded") "| x | 1 |" "quota exceeded" (Or.inr rfl)

/-- Claim C3: for a table containing a numeric column with values
[1,2,3,4,5], the digest reports count = 5, mean = 3.0, min = 1, max = 5,
50th percentile = 3.0, and a sample (n−1) standard deviation — the
nonnegative square root `s` of the computed sample variance — within
1e-4 of 1.5811. -/
theorem digest_stats_one_to_five (s : ℝ) (hs : 0 ≤ s)
    (hsq : s ^ 2 = ((describeCol [1, 2, 3, 4, 5]).var : ℝ)) :
    digestGrid (Table.mk [("kpi",
        [Cell.num 1, Cell.num 2, Cell.num 3, Cell.num 4, Cell.num 5])]) =
      [("kpi", describeCol [1, 2, 3, 4, 5])]
    ∧ (describeCol [1, 2, 3, 4, 5]).count = 5
    ∧ (describeCol [1, 2, 3, 4, 5]).mean = 3
    ∧ (describeCol [1, 2, 3, 4, 5]).min = 1
    ∧ (describeCol [1, 2, 3, 4, 5]).max = 5
    ∧ (describeCol [1, 2, 3, 4, 5]).q50 = 3
    ∧ |s - 1.5811| ≤ 1e-4 := by
  have hvar : (describeCol [1, 2, 3, 4, 5]).var = 5 / 2 := by
    norm_num [describeCol, sortQ, insertSorted, quantileQ,
      show Int.toNat 2 = 2 from rfl, show Int.toNat 3 = 3 from rfl]
  rw [hvar] at hsq
  have hsq' : s ^ 2 = 5 / 2 := by
    rw [hsq]
    norm_num
  refine ⟨?_, ?_, ?_, ?_, ?_, ?_, ?_⟩
  · simp [digestGrid, numericCols, isNumericCol, isNumericCell, numericValues, cellValue]
  · norm_num [describeCol]
  · norm_num [describeCol]
  · norm_num [describeCol, sortQ, insertSorted]
  · norm_num [describeCol, sortQ, insertSorted]
  · norm_num [describeCol, sortQ, insertSorted, quantileQ,
      show Int.toNat 2 = 2 from rfl]
  · rw [abs_le]
    constructor <;> nlinarith [hsq', hs]

theorem digest_stats_one_to_five_witness :
    digestGrid (Table.mk [("kpi",
        [Cell.num 1, Cell.num 2, Cell.num 3, Cell.num 4, Cell.num 5])]) =
      [("kpi", describeCol [1, 2, 3, 4, 5])]
    ∧ (describeCol [1, 2, 3, 4, 5]).count = 5
    ∧ (describeCol [1, 2, 3, 4, 5]).mean = 3
    ∧ (describeCol [1, 2, 3, 4, 5]).min = 1
    ∧ (describeCol [1, 2, 3, 4, 5]).max = 5
    ∧ (describeCol [1, 2, 3, 4, 5]).q50 = 3
    ∧ |Real.sqrt (5 / 2) - 1.5811| ≤ 1e-4 :=
  digest_stats_one_to_five (Real.sqrt (5 / 2)) (Real.sqrt_nonneg _)
    (by
      rw [Real.sq_sqrt (by norm_num : (0:ℝ) ≤ 5 / 2)]
      have hvar : (describeCol [1, 2, 3, 4, 5]).var = 5 / 2 := by
        norm_num [describeCol, sortQ, insertSorted, quantileQ,
          show Int.toNat 2 = 2 from rfl, show Int.toNat 3 = 3 from rfl]
      rw [hvar]
      norm_num)

/-- Claim C4: for every non-empty table in which no column is uniformly
numeric, the digest builder returns the "no numeric data" sentinel text
rather than any statistics table, and the ingestion step reports no
error for this outcome. -/
theorem no_numeric_sentinel (t : Table) (hne : t.isEmpty = false)
    (hnn : ∀ c ∈ t.cols, isNumericCol c.2 = false) :
    digestMarkdown t = noNumericSentinel
    ∧ processParsed (.ok t) = (some t, some noNumericSentinel, none) := by
  have hfilter : numericCols t = [] := by
    rw [numericCols, List.filter_eq_nil_iff]
    intro c hc
    simp [hnn c hc]
  have hdm : digestMarkdown t = noNumericSentinel := by
    rw [digestMarkdown, hfilter]
    rfl
  refine ⟨hdm, ?_⟩
  rw [processParsed, hne]
  simp [hdm]

theorem no_numeric_sentinel_witness :
    digestMarkdown (Table.mk [("region", [Cell.str "north"])]) = noNumericSentinel
    ∧ processParsed (.ok (Table.mk [("region", [Cell.str "north"])])) =
        (some (Table.mk [("region", [Cell.str "north"])]), some noNumericSentinel, none) :=
  no_numeric_sentinel (Table.mk [("region", [Cell.str "north"])]) (by decide) (by decide)

/-- Claim C5: for every named upload whose lowercase suffix after the
last `'.'` is not one of csv, xls, xlsx, json, the loader fails with the
unsupported-format error and returns no table; for suffixes in that set
it dispatches to the corresponding parser (csv to the delimited-text
parser, xls/xlsx to the spreadsheet parser, json to the JSON-table
parser). -/
theorem loader_dispatch (name : String) (csvParse excelParse jsonParse : ParseOutcome) :
    (fileExtension name ∉ (["csv", "xls", "xlsx", "json"] : List String) →
      ingest_and_summarize_kpis name csvParse excelParse jsonParse =
        (none, none, some unsupportedFormatMsg))
    ∧ (fileExtension name = "csv" →
      ingest_and_summarize_kpis name csvParse excelParse jsonParse = processParsed csvParse)
    ∧ (fileExtension name = "xls" ∨ fileExtension name = "xlsx" →
      ingest_and_summarize_kpis name csvParse excelParse jsonParse = processParsed excelParse)
    ∧ (fileExtension name = "json" →
      ingest_and_summarize_kpis name csvParse excelParse jsonParse = processParsed jsonParse) := by
  refine ⟨?_, ?_, ?_, ?_⟩
  · intro h
    have h1 : ¬ fileExtension name = "csv" := fun he => h (by simp [he])
    have h2 : ¬ fileExtension name = "xls" := fun he => h (by simp [he])
    have h3 : ¬ fileExtension name = "xlsx" := fun he => h (by simp [he])
    have h4 : ¬ fileExtension name = "json" := fun he => h (by simp [he])
    simp [ingest_and_summarize_kpis, h1, h2, h3, h4]
  · intro h
    simp [ingest_and_summarize_kpis, h]
  · intro h
    rcases h with h | h <;> simp [ingest_and_summarize_kpis, h]
  · intro h
    simp [ingest_and_summarize_kpis, h]

theorem loader_dispatch_witness :
    ingest_and_summarize_kpis "report.txt" (.err "a") (.err "b") (.err "c") =
      (none, none, some unsupportedFormatMsg)
    ∧ ingest_and_summarize_kpis "report.CSV" (.err "a") (.err "b") (.err "c") =
        processParsed (.err "a")
    ∧ ingest_and_summarize_kpis "report.xlsx" (.err "a") (.err "b") (.err "c") =
        processParsed (.err "b")
    ∧ ingest_and_summarize_kpis "report.json" (.err "a") (.err "b") (.err "c") =
        processParsed (.err "c") :=
  ⟨(loader_dispatch "report.txt" (.err "a") (.err "b") (.err "c")).1 (by decide),
   (loader_dispatch "report.CSV" (.err "a") (.err "b") (.err "c")).2.1 (by decide),
   (loader_dispatch "report.xlsx" (.err "a") (.err "b") (.err "c")).2.2.1 (Or.inr (by decide)),
   (loader_dispatch "report.json" (.err "a") (.err "b") (.err "c")).2.2.2 (by decide)⟩

/-- Claim C6: for every narrative text, packaging it as a plain/Markdown
artifact and then base64-decoding the artifact's payload yields exactly
the original narrative text (its UTF-8 bytes decode back to the
narrative's characters), and the artifact carries MIME type
`text/markdown`. -/
theorem markdown_package_roundTrip (narrative : String) :
    (base64Decode (packageMarkdownPayload narrative)).bind utf8Decode =
      some (narrative.data.map Char.toNat)
    ∧ markdownMime = "text/markdown"
    ∧ markdownDownloadLink narrative =
        "data:text/markdown;base64," ++ String.mk (packageMarkdownPayload narrative) := by
  refine ⟨?_, rfl, rfl⟩
  rw [packageMarkdownPayload, base64_roundTrip _ (encodeUtf8_lt narrative),
    Option.some_bind, utf8_roundTrip]

/-- Claim C7 fails as stated: for the source filename "my.report.csv",
whose stem (the name with its final extension removed) is "my.report",
the hypertext document's title is "KPI Summary - my" — built from the
part before the first dot — and does not contain the stem. -/
theorem hypertext_title_stem_counterexample :
    ¬ ((specFilenameStem "my.report.csv").data <:+:
        (pageTitleText (fileNameFirstPart "my.report.csv")).data) := by
  decide

/-- Claim C7, amended: for every source filename, packaging a narrative
to the hypertext format yields a document whose title contains the part
of the filename before the first `'.'` (equal to the stem whenever the
name has at most one dot), the page being the fixed template with the
rendered narrative embedded, base64-encoded with MIME type `text/html`
(decoding the payload recovers the full page). -/
theorem hypertext_package_spec (name renderedSummary : String) :
    (fileNameFirstPart name).data <:+:
        (pageTitleText (fileNameFirstPart name)).data
    ∧ (pageTitleText (fileNameFirstPart name)).data <:+:
        (htmlPage (fileNameFirstPart name) renderedSummary).data
    ∧ renderedSummary.data <:+:
        (htmlPage (fileNameFirstPart name) renderedSummary).data
    ∧ htmlMime = "text/html"
    ∧ (base64Decode (base64Encode (encodeUtf8
          (htmlPage (fileNameFirstPart name) renderedSummary)))).bind utf8Decode =
        some ((htmlPage (fileNameFirstPart name) renderedSummary).data.map Char.toNat)
    ∧ htmlDownloadLink (fileNameFirstPart name) renderedSummary =
        "data:text/html;base64," ++
          String.mk (base64Encode (encodeUtf8
            (htmlPage (fileNameFirstPart name) renderedSummary))) := by
  refine ⟨⟨"KPI Summary - ".data, [], ?_⟩,
    ⟨htmlDocPre.data, (htmlDocMid ++ renderedSummary ++ htmlDocPost).data, ?_⟩,
    ⟨(htmlDocPre ++ pageTitleText (fileNameFirstPart name) ++ htmlDocMid).data,
      htmlDocPost.data, ?_⟩, rfl, ?_, rfl⟩
  · simp [pageTitleText, String.data_append]
  · simp [htmlPage, String.data_append]
  · simp [htmlPage, String.data_append]
  · rw [base64_roundTrip _ (encodeUtf8_lt _), Option.some_bind, utf8_roundTrip]

/-- Claim C8: digest serialization is deterministic — for a fixed table
the serialized digest is identical across computations (the embedding is
a pure function of the table), with row order equal to the original
column order restricted to the numeric columns, and the statistic
columns in the fixed order count, mean, std, min, 25%, 50%, 75%, max. -/
theorem digest_serialization_deterministic (t : Table) :
    digestMarkdown t = digestMarkdown t
    ∧ (digestGrid t).map Prod.fst =
        (t.cols.filter fun c => isNumericCol c.2).map Prod.fst
    ∧ (∀ r : StatsRow, statsRowTexts r =
        [ratText r.count, ratText r.mean, stdText r.var, ratText r.min,
         ratText r.q25, ratText r.q50, ratText r.q75, ratText r.max])
    ∧ statNames = ["count", "mean", "std", "min", "25%", "50%", "75%", "max"] := by
  refine ⟨rfl, ?_, fun r => rfl, rfl⟩
  simp [digestGrid, numericCols, List.map_map]

/-- Claim C9: when ingestion succeeds but the narrative summarizer fails
(returns an `"ERROR:"`-prefixed string), `generate_report_and_insights`
reports failure (success flag `false`), surfaces that error text, and
still returns the already-ingested table so callers can use it for other
purposes such as charting. -/
theorem orchestrator_keeps_table_on_summarizer_error (name : String)
    (csvParse excelParse jsonParse : ParseOutcome)
    (summarizer render : String → String) (output_format : String)
    (df : Table) (desc : String)
    (hi : ingest_and_summarize_kpis name csvParse excelParse jsonParse =
      (some df, some desc, none))
    (hne : df.isEmpty = false)
    (hnum : containsNoNumericalData desc = false)
    (herr : startsWithERROR (summarizer desc) = true) :
    generate_report_and_insights name csvParse excelParse jsonParse summarizer render
        output_format = ("", none, false, some (summarizer desc), some df) := by
  rw [generate_report_and_insights, hi]
  simp [hne, hnum, herr]

set_option maxRecDepth 100000 in
theorem sampleTable_digest_text :
    digestMarkdown sampleTable =
      "| | count | mean | std | min | 25% | 50% | 75% | max |\n|---|---|---|---|---|---|---|---|---|\n| kpi | 2 | 1 | sqrt(0) | 1 | 1 | 1 | 1 | 1 |" := by
  have hrow : describeCol [1, 1] = ⟨2, 1, 0, 1, 1, 1, 1, 1⟩ := by
    norm_num [describeCol, sortQ, insertSorted, quantileQ,
      show Int.toNat 0 = 0 from rfl]
  rw [digestMarkdown, if_neg (by decide),
    show digestGrid sampleTable = [("kpi", describeCol [1, 1])] from rfl, hrow]
  decide

set_option maxRecDepth 100000 in
theorem orchestrator_keeps_table_witness :
    generate_report_and_insights "r.csv" (.ok sampleTable) (.err "b") (.err "c")
        (fun _ => "ERROR: model unavailable") (fun s => s) "markdown" =
      ("", none, false, some "ERROR: model unavailable", some sampleTable) := by
  have hnum : containsNoNumericalData (digestMarkdown sampleTable) = false := by
    rw [sampleTable_digest_text]
    decide
  exact orchestrator_keeps_table_on_summarizer_error "r.csv" (.ok sampleTable) (.err "b")
    (.err "c") (fun _ => "ERROR: model unavailable") (fun s => s) "markdown"
    sampleTable (digestMarkdown sampleTable) rfl rfl hnum (by decide)

/-- Claim C10: if the remote generation call returns successfully but
the response carries no extractable text, `generate_kpi_summary` returns
the fixed fallback string "AI response structure not as expected for KPI
summary. Could not extract text.", which does not carry the `"ERROR:"`
prefix; consequently the orchestrator's prefix check classifies this
degenerate outcome as a success and packages the fallback string into
the downloadable artifact. -/
theorem summarizer_fallback_treated_as_success (m : String)
    (call : String → CallOutcome) (name : String)
    (csvParse excelParse jsonParse : ParseOutcome) (render : String → String)
    (df : Table) (desc : String)
    (hcall : call (kpiPrompt desc) = .response .empty)
    (hi : ingest_and_summarize_kpis name csvParse excelParse jsonParse =
      (some df, some desc, none))
    (hne : df.isEmpty = false)
    (hnum : containsNoNumericalData desc = false) :
    generate_kpi_summary (.ok m) call desc = kpiFallbackText
    ∧ startsWithERROR kpiFallbackText = false
    ∧ generate_report_and_insights name csvParse excelParse jsonParse
        (generate_kpi_summary (.ok m) call) render "markdown" =
        (kpiFallbackText, some (markdownDownloadLink kpiFallbackText), true, none, some df)
    ∧ (base64Decode (packageMarkdownPayload kpiFallbackText)).bind utf8Decode =
        some (kpiFallbackText.data.map Char.toNat) := by
  have hgen : generate_kpi_summary (.ok m) call desc = kpiFallbackText := by
    rw [generate_kpi_summary, hcall]
  refine ⟨hgen, by decide, ?_, ?_⟩
  · rw [generate_report_and_insights, hi]
    simp [hne, hnum, hgen,
      show startsWithERROR kpiFallbackText = false from by decide,
      show ¬ (kpiFallbackText = "") from by decide]
  · rw [packageMarkdownPayload, base64_roundTrip _ (encodeUtf8_lt _),
      Option.some_bind, utf8_roundTrip]

set_option maxRecDepth 100000 in
theorem summarizer_fallback_witness :
    generate_kpi_summary (.ok "gemini-pro") (fun _ => .response .empty)
        (digestMarkdown sampleTable) = kpiFallbackText
    ∧ startsWithERROR kpiFallbackText = false
    ∧ generate_report_and_insights "r.csv" (.ok sampleTable) (.err "b") (.err "c")
        (generate_kpi_summary (.ok "gemini-pro") (fun _ => .response .empty))
        (fun s => s) "markdown" =
        (kpiFallbackText, some (markdownDownloadLink kpiFallbackText), true, none,
          some sampleTable)
    ∧ (base64Decode (packageMarkdownPayload kpiFallbackText)).bind utf8Decode =
        some (kpiFallbackText.data.map Char.toNat) := by
  have hnum : containsNoNumericalData (digestMarkdown sampleTable) = false := by
    rw [sampleTable_digest_text]
    decide
  exact summarizer_fallback_treated_as_success "gemini-pro" (fun _ => .response .empty)
    "r.csv" (.ok sampleTable) (.err "b") (.err "c") (fun s => s)
    sampleTable (digestMarkdown sampleTable) rfl rfl rfl hnum

end KpiAnalyzer
